import Mathlib

/-!
Shallow embedding of the LoRa rain-gauge firmware
(`PIC18F46K22_LoRa_RAIN_V8.X/main.c` and `defines.h`) and proofs about it.

Machine bytes and 16/32-bit integers are modelled as `Nat` with explicit
`% 256`, `% 65536`, `% 2^32` (or `Nat.land` masks, exactly as the C source
writes them) at the points where the C types truncate.  Hardware
collaborators (the CRC16 routine, the LoRa transceiver's IRQ-flag register,
the A/D conversion result) are black boxes and enter as function parameters.
-/

namespace LoRaRain

/-! ## Constants from `main.c` -/

/-- `#define DATA_PACKET_LENGTH 50` -/
def DATA_PACKET_LENGTH : Nat := 50

/-- `#define ID0 0x00` -/
def ID0 : Nat := 0x00

/-- `#define ID1 0x01` -/
def ID1 : Nat := 0x01

/-- `#define SOFTWARE_VERSION 0x08` -/
def SOFTWARE_VERSION : Nat := 0x08

/-- `#define BATT_UVLO 2000` -/
def BATT_UVLO : Nat := 2000

/-- `#define BATT_UVLO_ATOD BATT_UVLO/4` (C integer division) -/
def BATT_UVLO_ATOD : Nat := BATT_UVLO / 4

/-- `uint8_t address[8] = {0xE6,0xBA,0x08,0xFB,0x3A,0x4F,0x5E,0xCE};` -/
def address : List Nat := [0xE6, 0xBA, 0x08, 0xFB, 0x3A, 0x4F, 0x5E, 0xCE]

/-- The global `address` array read as a function of the index. -/
def addressByte (i : Nat) : Nat := address.getD i 0

/-- Modulus of the C type `uint32_t`. -/
def U32 : Nat := 2 ^ 32

/-! ## Byte buffers

The 50-byte global `txData` buffer is modelled as a function from index to
byte; `upd` is a single array store `buf[i] = v`. -/

/-- One array store `buf[i] = v`. -/
def upd (buf : Nat → Nat) (i v : Nat) : Nat → Nat :=
  fun j => if j = i then v else buf j

/-! ## Frame build (`transmitData`, the buffer-filling part)

Mirrors `main.c` lines 176–216 statement by statement.  The C casts
`(uint8_t)(x & 0xFF)` are written as `Nat.land x 0xFF` (equal to `x % 256`,
proved below). -/

/-- The stores into `txData[0] .. txData[47]` performed by `transmitData`,
in source order, starting from the previous buffer contents `buf`.
`mc`, `batt`, `temp`, `tips` are the values of the globals `messageCount`,
`batt`, `temp` and `tips` at the time of the call; `addr` is the global
`address` array. -/
def fillFrame (addr : Nat → Nat) (mc batt temp tips : Nat) (buf : Nat → Nat) :
    Nat → Nat :=
  let b := upd buf 0 DATA_PACKET_LENGTH
  let b := upd b 1 ID0
  let b := upd b 2 ID1
  let b := (List.range 8).foldl (fun b i => upd b (i + 3) (addr i)) b
  let b := upd b 11 SOFTWARE_VERSION
  let b := upd b 12 (Nat.land (mc >>> 24) 0xFF)
  let b := upd b 13 (Nat.land (mc >>> 16) 0xFF)
  let b := upd b 14 (Nat.land (mc >>> 8) 0xFF)
  let b := upd b 15 (Nat.land mc 0xFF)
  let b := upd b 16 (Nat.land (batt >>> 8) 0xFF)
  let b := upd b 17 (Nat.land batt 0xFF)
  let b := upd b 18 (Nat.land (temp >>> 8) 0xFF)
  let b := upd b 19 (Nat.land temp 0xFF)
  let b := upd b 20 0
  let b := upd b 21 0
  let b := upd b 22 0
  let b := upd b 23 0
  let b := upd b 24 (Nat.land (tips >>> 24) 0xFF)
  let b := upd b 25 (Nat.land (tips >>> 16) 0xFF)
  let b := upd b 26 (Nat.land (tips >>> 8) 0xFF)
  let b := upd b 27 (Nat.land tips 0xFF)
  let b := (List.range' 28 20).foldl (fun b i => upd b i 0) b
  b

/-- The first `len` bytes of a buffer, as handed to `CRC16(txData, len)`. -/
def bufBytes (buf : Nat → Nat) (len : Nat) : List Nat :=
  (List.range len).map buf

/-- The complete frame build of `transmitData` (`main.c` lines 176–221):
fill bytes 0–47, call the black-box `CRC16` on the first
`DATA_PACKET_LENGTH - 2 = 48` bytes (its C return type `unsigned short int`
is modelled by `% 65536`), then store the high byte at index 49 and the low
byte at index 48, in source order. -/
def fullFrame (crc : List Nat → Nat) (addr : Nat → Nat)
    (mc batt temp tips : Nat) (buf : Nat → Nat) : Nat → Nat :=
  let b := fillFrame addr mc batt temp tips buf
  let calcCRC := crc (bufBytes b (DATA_PACKET_LENGTH - 2)) % 65536
  let b := upd b 49 (Nat.land calcCRC 0xFF00 >>> 8)
  let b := upd b 48 (Nat.land calcCRC 0xFF)
  b

/-! ## Bitmask bridge lemmas -/

/-- `x & 0xFF` is `x % 256`. -/
theorem land_ff (x : Nat) : Nat.land x 0xFF = x % 256 := by
  have h := Nat.and_pow_two_sub_one_eq_mod x 8
  norm_num at h
  exact h

/-- `(x & 0xFF00) >> 8` is `(x >> 8) % 256`. -/
theorem land_ff00_shr (x : Nat) : Nat.land x 0xFF00 >>> 8 = (x >>> 8) % 256 := by
  apply Nat.eq_of_testBit_eq
  intro i
  rw [Nat.testBit_shiftRight]
  rw [show Nat.land x 0xFF00 = x &&& ((2 ^ 8 - 1) <<< 8) from rfl]
  rw [Nat.testBit_and, Nat.testBit_shiftLeft, Nat.testBit_two_pow_sub_one]
  rw [show (256 : Nat) = 2 ^ 8 from by norm_num, Nat.testBit_mod_two_pow,
    Nat.testBit_shiftRight]
  have h1 : 8 + i - 8 = i := by omega
  rw [h1]
  by_cases h : i < 8 <;> simp [h, Bool.and_comm]

/-! ## Closed form of the payload bytes

`payloadBytes` is the closed form of bytes 0–47 as a function of the inputs
alone; `bufBytes_fill48` proves that the store sequence of `transmitData`
produces exactly these bytes, whatever the previous buffer contents. -/

/-- Closed form of frame bytes 0–47 as a function of the inputs. -/
def payloadBytes (addr : Nat → Nat) (mc batt temp tips : Nat) : List Nat :=
  [50, 0, 1,
   addr 0, addr 1, addr 2, addr 3, addr 4, addr 5, addr 6, addr 7,
   8,
   (mc >>> 24) % 256, (mc >>> 16) % 256, (mc >>> 8) % 256, mc % 256,
   (batt >>> 8) % 256, batt % 256,
   (temp >>> 8) % 256, temp % 256,
   0, 0, 0, 0,
   (tips >>> 24) % 256, (tips >>> 16) % 256, (tips >>> 8) % 256, tips % 256,
   0, 0, 0, 0, 0, 0, 0, 0, 0, 0, 0, 0, 0, 0, 0, 0, 0, 0, 0, 0]

/-- Bytes 0–47 written by the fill sequence are `payloadBytes`, independently
of the prior buffer contents. -/
theorem bufBytes_fill48 (addr : Nat → Nat) (mc batt temp tips : Nat)
    (buf : Nat → Nat) :
    bufBytes (fillFrame addr mc batt temp tips buf) 48 =
      payloadBytes addr mc batt temp tips := by
  simp only [bufBytes, fillFrame, payloadBytes, DATA_PACKET_LENGTH, ID0, ID1,
    SOFTWARE_VERSION,
    show List.range 48 = [0,1,2,3,4,5,6,7,8,9,10,11,12,13,14,15,16,17,18,19,
      20,21,22,23,24,25,26,27,28,29,30,31,32,33,34,35,36,37,38,39,40,41,42,
      43,44,45,46,47] from rfl,
    show List.range 8 = [0,1,2,3,4,5,6,7] from rfl,
    show List.range' 28 20 = [28,29,30,31,32,33,34,35,36,37,38,39,40,41,42,
      43,44,45,46,47] from rfl,
    List.foldl, List.map, upd, land_ff]
  norm_num

/-- The trailing checksum stores at 48 and 49 do not change bytes 0–47. -/
theorem fullFrame_lt48 (crc : List Nat → Nat) (addr : Nat → Nat)
    (mc batt temp tips : Nat) (buf : Nat → Nat) (i : Nat) (hi : i < 48) :
    fullFrame crc addr mc batt temp tips buf i =
      fillFrame addr mc batt temp tips buf i := by
  simp only [fullFrame, upd]
  rw [if_neg (by omega), if_neg (by omega)]

/-- Bytes 0–47 of the finished frame are `payloadBytes`. -/
theorem bufBytes_full48 (crc : List Nat → Nat) (addr : Nat → Nat)
    (mc batt temp tips : Nat) (buf : Nat → Nat) :
    bufBytes (fullFrame crc addr mc batt temp tips buf) 48 =
      payloadBytes addr mc batt temp tips := by
  rw [← bufBytes_fill48 addr mc batt temp tips buf]
  unfold bufBytes
  apply List.map_congr_left
  intro a ha
  exact fullFrame_lt48 crc addr mc batt temp tips buf a (List.mem_range.mp ha)

/-- Byte 48 of the finished frame is the low byte of the checksum of the
payload bytes. -/
theorem fullFrame_at48 (crc : List Nat → Nat) (addr : Nat → Nat)
    (mc batt temp tips : Nat) (buf : Nat → Nat) :
    fullFrame crc addr mc batt temp tips buf 48 =
      crc (payloadBytes addr mc batt temp tips) % 65536 % 256 := by
  simp only [fullFrame, DATA_PACKET_LENGTH, upd]
  norm_num
  rw [bufBytes_fill48, land_ff]
  omega

/-- Byte 49 of the finished frame is the high byte of the checksum of the
payload bytes. -/
theorem fullFrame_at49 (crc : List Nat → Nat) (addr : Nat → Nat)
    (mc batt temp tips : Nat) (buf : Nat → Nat) :
    fullFrame crc addr mc batt temp tips buf 49 =
      ((crc (payloadBytes addr mc batt temp tips) % 65536) >>> 8) % 256 := by
  simp only [fullFrame, DATA_PACKET_LENGTH, upd]
  norm_num
  rw [bufBytes_fill48, land_ff00_shr]

/-- All 50 bytes of the finished frame in closed form. -/
theorem bufBytes_full50 (crc : List Nat → Nat) (addr : Nat → Nat)
    (mc batt temp tips : Nat) (buf : Nat → Nat) :
    bufBytes (fullFrame crc addr mc batt temp tips buf) 50 =
      payloadBytes addr mc batt temp tips ++
        [crc (payloadBytes addr mc batt temp tips) % 65536 % 256,
         ((crc (payloadBytes addr mc batt temp tips) % 65536) >>> 8) % 256] := by
  have h48 := bufBytes_full48 crc addr mc batt temp tips buf
  have e48 := fullFrame_at48 crc addr mc batt temp tips buf
  have e49 := fullFrame_at49 crc addr mc batt temp tips buf
  have hsplit : bufBytes (fullFrame crc addr mc batt temp tips buf) 50 =
      bufBytes (fullFrame crc addr mc batt temp tips buf) 48 ++
        [fullFrame crc addr mc batt temp tips buf 48,
         fullFrame crc addr mc batt temp tips buf 49] := by
    simp only [bufBytes,
      show List.range 50 = List.range 48 ++ [48, 49] from rfl, List.map_append,
      List.map, List.cons_append, List.nil_append]
  rw [hsplit, h48, e48, e49]

/-! ## Claims about the frame codec -/

/-- C2: for every identity (address), message count, battery reading,
temperature reading and tip count, the frame built by `transmitData` has
byte 0 = 50, bytes 1–2 = (0x00, 0x01), bytes 3–10 = the 8-byte address,
byte 11 = firmware version 0x08, bytes 12–15 = the message count big-endian,
bytes 16–17 = the battery reading big-endian, bytes 18–19 = the temperature
reading big-endian, bytes 20–23 = 0, bytes 24–27 = the tip count big-endian
and bytes 28–47 = 0; and for tip count 3, message count 7, battery 600,
temperature 450 with the device's fixed address, the bytes are exactly
those of the end-to-end scenario. -/
theorem claim_C2_frame_layout (crc : List Nat → Nat) (addr : Nat → Nat)
    (mc batt temp tips : Nat) (buf : Nat → Nat) :
    bufBytes (fullFrame crc addr mc batt temp tips buf) 48 =
      [50, 0, 1,
       addr 0, addr 1, addr 2, addr 3, addr 4, addr 5, addr 6, addr 7,
       8,
       (mc >>> 24) % 256, (mc >>> 16) % 256, (mc >>> 8) % 256, mc % 256,
       (batt >>> 8) % 256, batt % 256,
       (temp >>> 8) % 256, temp % 256,
       0, 0, 0, 0,
       (tips >>> 24) % 256, (tips >>> 16) % 256, (tips >>> 8) % 256,
       tips % 256,
       0, 0, 0, 0, 0, 0, 0, 0, 0, 0, 0, 0, 0, 0, 0, 0, 0, 0, 0, 0] ∧
    bufBytes (fullFrame crc addressByte 7 600 450 3 buf) 48 =
      [50, 0, 1, 0xE6, 0xBA, 0x08, 0xFB, 0x3A, 0x4F, 0x5E, 0xCE, 0x08,
       0, 0, 0, 7, 0x02, 0x58, 0x01, 0xC2, 0, 0, 0, 0, 0, 0, 0, 3,
       0, 0, 0, 0, 0, 0, 0, 0, 0, 0, 0, 0, 0, 0, 0, 0, 0, 0, 0, 0] := by
  constructor
  · rw [bufBytes_full48]
    rfl
  · rw [bufBytes_full48]
    decide

/-- C3: for every frame built by `transmitData`, the 16-bit checksum is
computed over exactly bytes 0–47 of the frame (48 bytes passed to the
black-box `CRC16`), and the checksum low byte lands at offset 48 and its
high byte at offset 49. -/
theorem claim_C3_checksum (crc : List Nat → Nat) (addr : Nat → Nat)
    (mc batt temp tips : Nat) (buf : Nat → Nat) :
    fullFrame crc addr mc batt temp tips buf 48 =
      crc (bufBytes (fullFrame crc addr mc batt temp tips buf) 48) %
        65536 % 256 ∧
    fullFrame crc addr mc batt temp tips buf 49 =
      ((crc (bufBytes (fullFrame crc addr mc batt temp tips buf) 48) %
        65536) >>> 8) % 256 := by
  rw [bufBytes_full48]
  exact ⟨fullFrame_at48 crc addr mc batt temp tips buf,
    fullFrame_at49 crc addr mc batt temp tips buf⟩

/-- C9: frame encoding is deterministic — two frame builds with identical
identity, message count, battery, temperature and tip count inputs but
arbitrary different prior buffer contents produce all 50 bytes identical. -/
theorem claim_C9_determinism (crc : List Nat → Nat) (addr : Nat → Nat)
    (mc batt temp tips : Nat) (buf1 buf2 : Nat → Nat) :
    bufBytes (fullFrame crc addr mc batt temp tips buf1) 50 =
      bufBytes (fullFrame crc addr mc batt temp tips buf2) 50 := by
  rw [bufBytes_full50, bufBytes_full50]

/-! ## Main-cycle state and observable events

`St` holds the globals of `main.c` that the cycle reads or writes
(`tips`, `messageCount`, `txData`, `batt`, `temp`), the red status LED
(`LATEbits.LATE2`, `defines.h`) and the INT1 pending flag
(`INTCON3bits.INT1F`).  `Ev` records the externally visible actions the
cycle performs, in order. -/

/-- Globals and the bits of machine state the claims are about. -/
structure St where
  tips : Nat
  messageCount : Nat
  txData : Nat → Nat
  batt : Nat
  temp : Nat
  redLED : Bool
  int1f : Bool

/-- Power-on state: C statics are zero-initialised; `tips=0`,
`messageCount=0`, `batt=0`, `temp=0`, `txData` all zero. -/
def initSt : St :=
  { tips := 0, messageCount := 0, txData := fun _ => 0, batt := 0,
    temp := 0, redLED := false, int1f := false }

/-- Observable actions of the cycle, in program order. -/
inductive Ev where
  | loraStart
  | loraClearIRQ
  | loraTX
  | loraGetIRQ
  | loraSleep
  | delay (ms : Nat)
  | ledRed (b : Bool)
  | disableP
  | mcuSleep
deriving DecidableEq, Repr

/-- Whether an event is an operation on the LoRa transceiver. -/
def isLora : Ev → Bool
  | Ev.loraStart => true
  | Ev.loraClearIRQ => true
  | Ev.loraTX => true
  | Ev.loraGetIRQ => true
  | Ev.loraSleep => true
  | _ => false

/-! ## Transmit-completion poll loop (`main.c` lines 240–248)

```
uint8_t j=0;
for(j=0;j<50;j++){
    uint8_t flags = LoRaGetIRQFlags();
    if(flags>0){ break; }
    __delay_ms(10);
}
```

`flags` is the black-box IRQ-flag register, given as the value read on each
poll (indexed by `j`).  `pollFrom flags r j` runs the loop from counter
value `j` with `r = 50 - j` iterations remaining; it returns the events
performed and the final value of `j`. -/

/-- The poll loop from counter `j` with `r` iterations remaining. -/
def pollFrom (flags : Nat → Nat) : Nat → Nat → List Ev × Nat
  | 0, j => ([], j)
  | r + 1, j =>
    if flags j > 0 then ([Ev.loraGetIRQ], j)
    else
      let p := pollFrom flags r (j + 1)
      (Ev.loraGetIRQ :: Ev.delay 10 :: p.1, p.2)

/-- The whole bounded poll loop: up to 50 iterations starting at `j = 0`. -/
def pollLoop (flags : Nat → Nat) : List Ev × Nat := pollFrom flags 50 0

/-! ## `transmitData` (`main.c` lines 171–259)

Builds the frame into the global `txData` from the current globals, then:
`LoRaStart`, `LoRaClearIRQFlags`, red LED on, `LoRaTXData`, the bounded
poll loop, `LoRaSleepMode` (unconditionally), a 10 ms delay,
`messageCount++` (a `uint32_t` increment) and red LED off.  `DEBUG` is 0,
so the `printf` branches are dead code. -/

/-- One call of `transmitData`: final state and the events performed. -/
def transmitData (crc : List Nat → Nat) (flags : Nat → Nat) (s : St) :
    St × List Ev :=
  let tx := fullFrame crc addressByte s.messageCount s.batt s.temp s.tips
    s.txData
  let poll := pollLoop flags
  ({ s with
      txData := tx,
      messageCount := ((s.messageCount + 1) % U32),
      redLED := false },
   [Ev.loraStart, Ev.loraClearIRQ, Ev.ledRed true, Ev.loraTX] ++ poll.1 ++
     [Ev.loraSleep, Ev.delay 10, Ev.ledRed false])

/-! ## Decide / skip / quiesce / sleep (`main.c` lines 85–111)

The tail of each `main` cycle, after the globals `batt` and `temp` have
been set from the A/D:

```
if(batt>BATT_UVLO_ATOD){ transmitData(); }
else { RED_LED=1; __delay_ms(300); RED_LED=0; __delay_ms(300); ... (3 times) }
disablePeripherals();
SLEEP();
```
-/

/-- The red-LED fault pattern of the under-voltage branch: three 300 ms
on/off blinks. -/
def blinkEvents : List Ev :=
  [Ev.ledRed true, Ev.delay 300, Ev.ledRed false, Ev.delay 300,
   Ev.ledRed true, Ev.delay 300, Ev.ledRed false, Ev.delay 300,
   Ev.ledRed true, Ev.delay 300, Ev.ledRed false, Ev.delay 300]

/-- The decide→{transmit|skip}→quiesce→sleep tail of one `main` cycle. -/
def cycleTail (crc : List Nat → Nat) (flags : Nat → Nat) (s : St) :
    St × List Ev :=
  if s.batt > BATT_UVLO_ATOD then
    let r := transmitData crc flags s
    (r.1, r.2 ++ [Ev.disableP, Ev.mcuSleep])
  else
    ({ s with redLED := false }, blinkEvents ++ [Ev.disableP, Ev.mcuSleep])

/-! ## Interrupt handler (`main.c` lines 316–322)

```
void __interrupt() Isr(void){
    if(INTCON3bits.INT1F==1){
        tips++;
        INTCON3bits.INT1F=0;
        RED_LED=1;
    }
}
```
-/

/-- One invocation of the interrupt handler. -/
def Isr (s : St) : St :=
  if s.int1f then
    { s with tips := (s.tips + 1) % U32, int1f := false, redLED := true }
  else s

/-! ## Poll-loop lemmas -/

/-- If every poll reads flag 0, the loop runs all remaining iterations,
each poll followed by a 10 ms delay, and the counter ends at `j + r`. -/
theorem pollFrom_all_zero (flags : Nat → Nat) (h : ∀ k, flags k = 0) :
    ∀ r j, pollFrom flags r j =
      ((List.replicate r [Ev.loraGetIRQ, Ev.delay 10]).flatten, j + r) := by
  intro r
  induction r with
  | zero => intro j; simp [pollFrom]
  | succ n ih =>
    intro j
    have hz : ¬ (flags j > 0) := by rw [h j]; omega
    simp only [pollFrom, if_neg hz, ih (j + 1), List.replicate_succ,
      List.flatten_cons, List.cons_append, List.nil_append, Prod.mk.injEq]
    exact ⟨trivial, by omega⟩

/-- The poll loop performs only flag reads and delays. -/
theorem pollFrom_events (flags : Nat → Nat) :
    ∀ r j, ∀ e ∈ (pollFrom flags r j).1,
      e = Ev.loraGetIRQ ∨ e = Ev.delay 10 := by
  intro r
  induction r with
  | zero => intro j e he; simp [pollFrom] at he
  | succ n ih =>
    intro j e he
    by_cases hz : flags j > 0
    · simp [pollFrom, hz] at he
      left
      exact he
    · simp only [pollFrom, if_neg hz, List.mem_cons] at he
      rcases he with h1 | h1 | h1
      · left; exact h1
      · right; exact h1
      · exact ih (j + 1) e h1

/-! ## Claims about the decide branch and the transmit sequencer -/

/-- C1 (counterexample): the claim says the transmit branch is taken iff
the battery reading is at least the threshold 500; at reading exactly 500
the code takes the skip branch (`batt>BATT_UVLO_ATOD` is strict), so the
claimed equivalence fails at 500. -/
theorem claim_C1_counterexample :
    ¬ (Ev.loraTX ∈ (cycleTail (fun _ => 0) (fun _ => 0)
        { initSt with batt := 500 }).2 ↔
       500 ≤ ({ initSt with batt := 500 } : St).batt) := by
  decide

/-- C1 (amended): in the DECIDE step, the transmit branch is taken iff the
battery reading is strictly greater than the under-voltage threshold
(raw count 500): 501 transmits, 500 and 499 skip. -/
theorem claim_C1_uvlo_boundary (crc : List Nat → Nat) (flags : Nat → Nat)
    (s : St) :
    Ev.loraTX ∈ (cycleTail crc flags s).2 ↔ 500 < s.batt := by
  by_cases h : (500 : Nat) < s.batt <;>
    simp [cycleTail, show BATT_UVLO_ATOD = 500 from rfl, h, transmitData,
      blinkEvents]

/-- C4: if the status-flag read returns zero on every poll, the sequencer
performs exactly 50 poll iterations, each followed by a 10 ms delay, the
loop counter ends at 50, and the sleep command, trailing delay,
`messageCount` increment and LED-off happen after the loop — the same
steps performed for any other flag behaviour. -/
theorem claim_C4_timeout (crc : List Nat → Nat) (flags : Nat → Nat) (s : St)
    (h : ∀ k, flags k = 0) :
    (pollLoop flags).1 =
      (List.replicate 50 [Ev.loraGetIRQ, Ev.delay 10]).flatten ∧
    (pollLoop flags).2 = 50 ∧
    (transmitData crc flags s).2 =
      [Ev.loraStart, Ev.loraClearIRQ, Ev.ledRed true, Ev.loraTX] ++
        (List.replicate 50 [Ev.loraGetIRQ, Ev.delay 10]).flatten ++
        [Ev.loraSleep, Ev.delay 10, Ev.ledRed false] ∧
    (transmitData crc flags s).1.messageCount =
      ((s.messageCount + 1) % U32) ∧
    (∀ flags2 : Nat → Nat, ∀ s2 : St,
      (transmitData crc flags2 s2).2 =
        [Ev.loraStart, Ev.loraClearIRQ, Ev.ledRed true, Ev.loraTX] ++
          (pollLoop flags2).1 ++
          [Ev.loraSleep, Ev.delay 10, Ev.ledRed false] ∧
      (transmitData crc flags2 s2).1.messageCount =
        ((s2.messageCount + 1) % U32)) := by
  have hp := pollFrom_all_zero flags h 50 0
  refine ⟨?_, ?_, ?_, rfl, ?_⟩
  · rw [pollLoop, hp]
  · rw [pollLoop, hp]
  · simp only [transmitData, pollLoop, hp]
  · intro flags2 s2
    exact ⟨rfl, rfl⟩

/-- Witness for C4 at the all-zero flag oracle. -/
theorem claim_C4_witness :
    (∀ k : Nat, (fun _ : Nat => (0 : Nat)) k = 0) ∧
    (pollLoop (fun _ => 0)).1 =
      (List.replicate 50 [Ev.loraGetIRQ, Ev.delay 10]).flatten :=
  ⟨fun _ => rfl,
   (claim_C4_timeout (fun _ => 0) (fun _ => 0) initSt (fun _ => rfl)).1⟩

/-- C7: when the battery reading is at or below the lockout threshold, the
cycle performs no transceiver operation, leaves `messageCount`, `txData`
and `tips` unchanged, its trace is exactly the red-LED fault blink followed
by the bring-down procedure and sleep — and the transmit path ends with the
same bring-down and sleep steps. -/
theorem claim_C7_skip (crc : List Nat → Nat) (flags : Nat → Nat) (s : St)
    (h : s.batt ≤ BATT_UVLO_ATOD) :
    (∀ e ∈ (cycleTail crc flags s).2, isLora e = false) ∧
    (cycleTail crc flags s).1.messageCount = s.messageCount ∧
    (cycleTail crc flags s).1.txData = s.txData ∧
    (cycleTail crc flags s).1.tips = s.tips ∧
    (cycleTail crc flags s).2 = blinkEvents ++ [Ev.disableP, Ev.mcuSleep] ∧
    (∀ s2 : St, BATT_UVLO_ATOD < s2.batt →
      ∃ pre, (cycleTail crc flags s2).2 = pre ++ [Ev.disableP, Ev.mcuSleep]) := by
  have hc : ¬ (BATT_UVLO_ATOD < s.batt) := by omega
  refine ⟨?_, ?_, ?_, ?_, ?_, ?_⟩
  · intro e he
    simp only [cycleTail, if_neg hc, blinkEvents] at he
    fin_cases he <;> rfl
  · simp [cycleTail, if_neg hc]
  · simp [cycleTail, if_neg hc]
  · simp [cycleTail, if_neg hc]
  · simp [cycleTail, if_neg hc]
  · intro s2 hb
    refine ⟨(transmitData crc flags s2).2, ?_⟩
    simp [cycleTail, if_pos hb]

/-- Witness for C7 at a concrete under-voltage state. -/
theorem claim_C7_witness :
    initSt.batt ≤ BATT_UVLO_ATOD ∧
    (cycleTail (fun _ => 0) (fun _ => 0) initSt).2 =
      blinkEvents ++ [Ev.disableP, Ev.mcuSleep] :=
  ⟨by decide,
   (claim_C7_skip (fun _ => 0) (fun _ => 0) initSt (by decide)).2.2.2.2.1⟩

/-- C8: the tip counter starts at zero, is read but never written by the
decide/transmit/skip/quiesce cycle, and is mutated only by the interrupt
handler, which on a pending INT1 edge increments it by exactly one (as a
32-bit counter) and clears the pending flag, and otherwise changes
nothing; the increment never decreases the counter short of 32-bit
wraparound. -/
theorem claim_C8_tip_counter :
    initSt.tips = 0 ∧
    (∀ (crc : List Nat → Nat) (flags : Nat → Nat) (s : St),
      (cycleTail crc flags s).1.tips = s.tips) ∧
    (∀ s : St, s.int1f = true →
      (Isr s).tips = ((s.tips + 1) % U32) ∧ (Isr s).int1f = false) ∧
    (∀ s : St, s.int1f = false → Isr s = s) ∧
    (∀ s : St, s.tips + 1 < U32 → s.tips ≤ (Isr s).tips) := by
  refine ⟨rfl, ?_, ?_, ?_, ?_⟩
  · intro crc flags s
    by_cases h : BATT_UVLO_ATOD < s.batt <;>
      simp [cycleTail, transmitData, h]
  · intro s h
    simp [Isr, h]
  · intro s h
    simp [Isr, h]
  · intro s h
    by_cases hf : s.int1f
    · simp only [Isr, if_pos hf]
      have : (s.tips + 1) % U32 = s.tips + 1 := Nat.mod_eq_of_lt h
      rw [this]
      omega
    · simp [Isr, hf]

/-- Witness for C8 at a concrete state with the INT1 flag pending. -/
theorem claim_C8_witness :
    ({ initSt with int1f := true } : St).int1f = true ∧
    (Isr { initSt with int1f := true }).tips =
      ((({ initSt with int1f := true } : St).tips + 1) % U32) :=
  ⟨rfl, (claim_C8_tip_counter.2.2.1 { initSt with int1f := true } rfl).1⟩

/-- C10: invoked with the INT1 pending flag set, the interrupt handler
increments the tip counter, clears the flag and turns the red LED on,
changing nothing else; invoked with the flag clear it changes no state at
all. -/
theorem claim_C10_isr_frame (s : St) :
    (s.int1f = true →
      Isr s = { s with
        tips := ((s.tips + 1) % U32), int1f := false, redLED := true }) ∧
    (s.int1f = false → Isr s = s) := by
  constructor <;> intro h <;> simp [Isr, h]

/-- Witness for C10 at a concrete state with the INT1 flag pending. -/
theorem claim_C10_witness :
    ({ initSt with int1f := true } : St).int1f = true ∧
    Isr { initSt with int1f := true } =
      { ({ initSt with int1f := true } : St) with
        tips := ((({ initSt with int1f := true } : St).tips + 1) % U32),
        int1f := false, redLED := true } :=
  ⟨rfl, (claim_C10_isr_frame { initSt with int1f := true }).1 rfl⟩


/-! ## Pin and peripheral registers (`configurePins`, `disablePeripherals`)

The register file is a map from register name to bit map (bit index →
value).  A whole-register byte assignment becomes `setByte`, a single-bit
assignment becomes `setBit`.  Named peripheral-module-disable bits
(`PMD0bits.x`, `PMD2bits.ADCMD`) are one-bit pseudo-registers at bit 0,
since their packed positions never matter here; the whole-byte write
`PMD2=0xFF` sets every bit of `PMD2`, so the step also sets the `ADCMD`
pseudo-register it contains. -/

/-- The registers touched by `configurePins` and `disablePeripherals`.
`ADON`, `INT1E`, `INT1F`, `GIE`, `INTEDG1` and the `xMD`
peripheral-module-disable names are single-bit registers (bit 0). -/
inductive Reg where
  | TRISA
  | TRISB
  | TRISC
  | TRISD
  | TRISE
  | LATA
  | LATB
  | LATC
  | LATD
  | LATE
  | ANSELA
  | ANSELB
  | ANSELD
  | ANSELE
  | ADON
  | INT1E
  | INT1F
  | GIE
  | INTEDG1
  | UART2MD
  | UART1MD
  | SPI2MD
  | SPI1MD
  | TMR6MD
  | TMR5MD
  | TMR4MD
  | TMR3MD
  | TMR2MD
  | TMR1MD
  | ADCMD
  | PMD1
  | PMD2
deriving DecidableEq, Repr

/-- The register file: register name → bit index → bit value. -/
def Pins : Type := Reg → Nat → Bool

/-- Reads a register byte as a bit map. -/
def byteBits (v : Nat) : Nat → Bool := fun i => v.testBit i

/-- One single-bit register store. -/
def updBit (r : Nat → Bool) (i : Nat) (b : Bool) : Nat → Bool :=
  fun j => if j = i then b else r j

/-- Whole-register byte assignment. -/
def setByte (p : Pins) (r : Reg) (v : Nat) : Pins :=
  fun q => if q = r then byteBits v else p q

/-- Single-bit register assignment. -/
def setBit (p : Pins) (r : Reg) (i : Nat) (b : Bool) : Pins :=
  fun q => if q = r then updBit (p r) i b else p q

/-- All-zero register state (registers clear, modules enabled). -/
def initPins : Pins := fun _ => byteBits 0

/-- `INTCON2bits.INTEDG1=0` at the top of `main` (line 86). -/
def setEdgeFalling (p : Pins) : Pins := setBit p Reg.INTEDG1 0 false

/-- `configureIO` of the source (`main.c` lines 113–137), pin/interrupt effects in source
order.  `USART2_Start` is the serial collaborator and touches no modelled
register. -/
def configurePins (p : Pins) : Pins :=
  let p := setBit p Reg.UART2MD 0 false
  let p := setBit p Reg.SPI2MD 0 false
  let p := setBit p Reg.ADCMD 0 false
  let p := setBit p Reg.ANSELA 2 false
  let p := setBit p Reg.TRISA 2 false
  let p := setBit p Reg.LATA 2 false
  let p := setBit p Reg.ANSELE 1 false
  let p := setBit p Reg.ANSELE 2 false
  let p := setBit p Reg.ANSELB 4 false
  let p := setBit p Reg.TRISE 1 false
  let p := setBit p Reg.TRISE 2 false
  let p := setBit p Reg.ANSELB 1 false
  let p := setBit p Reg.TRISB 1 true
  let p := setBit p Reg.INT1E 0 true
  let p := setBit p Reg.INT1F 0 false
  let p := setBit p Reg.GIE 0 true
  p

/-- `disablePeripherals` (`main.c` lines 139–169), in source order. -/
def disablePeripherals (p : Pins) : Pins :=
  let p := setBit p Reg.ADON 0 false
  let p := setByte p Reg.TRISA 0
  let p := setByte p Reg.TRISB 0x02
  let p := setByte p Reg.TRISC 0
  let p := setByte p Reg.TRISD 0
  let p := setByte p Reg.TRISE 0
  let p := setByte p Reg.LATA 0
  let p := setByte p Reg.LATB 0
  let p := setByte p Reg.LATC 0
  let p := setByte p Reg.LATD 0
  let p := setByte p Reg.LATE 0
  let p := setBit p Reg.LATA 2 true
  let p := setBit p Reg.TRISD 1 true
  let p := setBit p Reg.ANSELD 1 false
  let p := setBit p Reg.LATD 3 true
  let p := setBit p Reg.UART2MD 0 true
  let p := setBit p Reg.UART1MD 0 true
  let p := setBit p Reg.TMR6MD 0 true
  let p := setBit p Reg.TMR5MD 0 true
  let p := setBit p Reg.TMR4MD 0 true
  let p := setBit p Reg.TMR3MD 0 true
  let p := setBit p Reg.TMR2MD 0 true
  let p := setBit p Reg.TMR1MD 0 true
  let p := setBit p Reg.SPI2MD 0 true
  let p := setBit p Reg.SPI1MD 0 true
  let p := setByte p Reg.PMD1 0xFF
  let p := setByte p Reg.PMD2 0xFF
  let p := setBit p Reg.ADCMD 0 true
  p

/-- The five general-purpose ports. -/
inductive Port where
  | A
  | B
  | C
  | D
  | E
deriving DecidableEq, Repr

/-- The TRIS register of a port. -/
def trisOf : Port → Reg
  | Port.A => Reg.TRISA
  | Port.B => Reg.TRISB
  | Port.C => Reg.TRISC
  | Port.D => Reg.TRISD
  | Port.E => Reg.TRISE

/-- The LAT register of a port. -/
def latOf : Port → Reg
  | Port.A => Reg.LATA
  | Port.B => Reg.LATB
  | Port.C => Reg.LATC
  | Port.D => Reg.LATD
  | Port.E => Reg.LATE

/-- Pin `i` of port `pt` is configured as an output driving low. -/
def outputLow (p : Pins) (pt : Port) (i : Nat) : Bool :=
  !(p (trisOf pt) i) && !(p (latOf pt) i)

/-! ## Claims about the bring-down procedure -/

/-- C5 (counterexample): pin RA2 is not the tip-interrupt pin RB1, yet
after `disablePeripherals` it is an output driving HIGH
(`LATAbits.LA2=1`), so not every pin other than RB1 is an output driving
low; RD1 is left as an input (`TRISDbits.RD1=1`) and RD3 is an output
driving high (`LATDbits.LATD3=1`). -/
theorem claim_C5_counterexample :
    ¬ (Port.A = Port.B ∧ (2 : Nat) = 1) ∧
    outputLow (disablePeripherals (configurePins initPins)) Port.A 2 = false ∧
    outputLow (disablePeripherals (configurePins initPins)) Port.D 1 = false ∧
    outputLow (disablePeripherals (configurePins initPins)) Port.D 3 = false := by
  refine ⟨by decide, ?_, ?_, ?_⟩ <;> rfl

/-- C5 (amended): after `disablePeripherals`, every general-purpose pin is
an output driving low except RB1 (left as an input, its INT1 enable bit
untouched — so still enabled after `configurePins` set it), RD1 (left as an
input so the LoRa module can drive SDI), and RA2 and RD3 (outputs driven
high: external-circuitry power-off and LoRa chip-select deasserted). -/
theorem claim_C5_quiesce (p : Pins) :
    outputLow (disablePeripherals p) Port.A 0 = true ∧
    outputLow (disablePeripherals p) Port.A 1 = true ∧
    outputLow (disablePeripherals p) Port.A 3 = true ∧
    outputLow (disablePeripherals p) Port.A 4 = true ∧
    outputLow (disablePeripherals p) Port.A 5 = true ∧
    outputLow (disablePeripherals p) Port.A 6 = true ∧
    outputLow (disablePeripherals p) Port.A 7 = true ∧
    outputLow (disablePeripherals p) Port.B 0 = true ∧
    outputLow (disablePeripherals p) Port.B 2 = true ∧
    outputLow (disablePeripherals p) Port.B 3 = true ∧
    outputLow (disablePeripherals p) Port.B 4 = true ∧
    outputLow (disablePeripherals p) Port.B 5 = true ∧
    outputLow (disablePeripherals p) Port.B 6 = true ∧
    outputLow (disablePeripherals p) Port.B 7 = true ∧
    outputLow (disablePeripherals p) Port.C 0 = true ∧
    outputLow (disablePeripherals p) Port.C 1 = true ∧
    outputLow (disablePeripherals p) Port.C 2 = true ∧
    outputLow (disablePeripherals p) Port.C 3 = true ∧
    outputLow (disablePeripherals p) Port.C 4 = true ∧
    outputLow (disablePeripherals p) Port.C 5 = true ∧
    outputLow (disablePeripherals p) Port.C 6 = true ∧
    outputLow (disablePeripherals p) Port.C 7 = true ∧
    outputLow (disablePeripherals p) Port.D 0 = true ∧
    outputLow (disablePeripherals p) Port.D 2 = true ∧
    outputLow (disablePeripherals p) Port.D 4 = true ∧
    outputLow (disablePeripherals p) Port.D 5 = true ∧
    outputLow (disablePeripherals p) Port.D 6 = true ∧
    outputLow (disablePeripherals p) Port.D 7 = true ∧
    outputLow (disablePeripherals p) Port.E 0 = true ∧
    outputLow (disablePeripherals p) Port.E 1 = true ∧
    outputLow (disablePeripherals p) Port.E 2 = true ∧
    outputLow (disablePeripherals p) Port.E 3 = true ∧
    outputLow (disablePeripherals p) Port.E 4 = true ∧
    outputLow (disablePeripherals p) Port.E 5 = true ∧
    outputLow (disablePeripherals p) Port.E 6 = true ∧
    outputLow (disablePeripherals p) Port.E 7 = true ∧
    disablePeripherals p Reg.TRISB 1 = true ∧
    disablePeripherals p Reg.TRISD 1 = true ∧
    disablePeripherals p Reg.LATA 2 = true ∧
    disablePeripherals p Reg.LATD 3 = true ∧
    disablePeripherals p Reg.INT1E 0 = p Reg.INT1E 0 ∧
    disablePeripherals (configurePins p) Reg.INT1E 0 = true := by
  and_intros <;> rfl

/-! ## A/D converter (`setupAtoD`, `readBattery`, `readTemperature`)

The conversion result is a black box `hw` mapping the converter state at
conversion start (channel select, reference select, …) to the
`ADRESH`/`ADRESL` register pair.  The `while(ADCON0bits.GO_NOT_DONE)` busy
wait is modelled by the hardware contract: the conversion completes,
clearing `GO_NOT_DONE` and loading the result registers, and only then is
the result read. -/

/-- The A/D converter registers used by the source. -/
structure Adc where
  PVCFG : Nat
  NVCFG : Nat
  CHS : Nat
  FVRS : Nat
  FVREN : Bool
  ACQT : Nat
  ADCS : Nat
  ADFM : Bool
  ADON : Bool
  GO : Bool
  ADRESH : Nat
  ADRESL : Nat
  ANSA0 : Bool
  ANSA1 : Bool
  TRISA0 : Bool
  TRISA1 : Bool

/-- Power-on A/D register state. -/
def initAdc : Adc :=
  { PVCFG := 0, NVCFG := 0, CHS := 0, FVRS := 0, FVREN := false,
    ACQT := 0, ADCS := 0, ADFM := false, ADON := false, GO := false,
    ADRESH := 0, ADRESL := 0,
    ANSA0 := false, ANSA1 := false, TRISA0 := false, TRISA1 := false }

/-- `ADCON0bits.GO_NOT_DONE=1` followed by the busy wait
`while(ADCON0bits.GO_NOT_DONE){}`: the conversion starts, the hardware
converts the currently selected channel, completion clears the flag and
loads `ADRESH`/`ADRESL`. -/
def startConversion (hw : Adc → Nat × Nat) (s : Adc) : Adc :=
  let s1 := { s with GO := true }
  { s1 with GO := false, ADRESH := (hw s1).1, ADRESL := (hw s1).2 }

/-- `readBattery` (`main.c` lines 264–272): select the FVR BUF2 positive
reference (`PVCFG=0b10`), start and await a conversion, return
`ADRESH * 256 + ADRESL`.  Note: no channel select appears here. -/
def readBattery (hw : Adc → Nat × Nat) (s : Adc) : Adc × Nat :=
  let s := { s with PVCFG := 2 }
  let s := startConversion hw s
  (s, s.ADRESH * 256 + s.ADRESL)

/-- `readTemperature` (`main.c` lines 274–284): select Vdd as positive
reference (`PVCFG=0`), select channel 1, start and await a conversion,
return `ADRESH * 256 + ADRESL`. -/
def readTemperature (hw : Adc → Nat × Nat) (s : Adc) : Adc × Nat :=
  let s := { s with PVCFG := 0, CHS := 1 }
  let s := startConversion hw s
  (s, s.ADRESH * 256 + s.ADRESL)

/-- `setupAtoD` (`main.c` lines 286–316); the thirteen register-bit
assignments of the source all hit distinct fields, collapsed here into one
simultaneous record update. -/
def setupAtoD (s : Adc) : Adc :=
  { s with
    ANSA0 := true, ANSA1 := true,
    TRISA0 := true, TRISA1 := true,
    PVCFG := 0, NVCFG := 0,
    FVRS := 1, FVREN := true,
    CHS := 0,
    ACQT := 2,
    ADCS := 6,
    ADFM := true,
    ADON := true }

/-! ## Claims about the analog sampler -/

/-- C6 (counterexample): `readBattery` contains no channel select; called
with channel 1 currently selected (as it is right after
`readTemperature`), the conversion runs on channel 1 and the returned
state still has `CHS = 1`, refuting the claim that `readBattery` selects
channel 0 on every call.  The hardware oracle here reports the selected
channel in `ADRESH`, so the reading 256 shows channel 1 was converted. -/
theorem claim_C6_counterexample :
    (readBattery (fun a => (a.CHS, 0)) { initAdc with CHS := 1 }).1.CHS = 1 ∧
    (readBattery (fun a => (a.CHS, 0)) { initAdc with CHS := 1 }).2 = 256 := by
  exact ⟨rfl, rfl⟩

/-- C6 (amended): `readBattery` selects the FVR reference (`PVCFG = 2`)
but leaves the channel selection as found — channel 0 only because
`setupAtoD` (which runs before it in every cycle) selected channel 0;
`readTemperature` selects both the Vdd reference (`PVCFG = 0`) and
channel 1; each starts a conversion, returns with the conversion-complete
flag clear, and returns `ADRESH * 256 + ADRESL`. -/
theorem claim_C6_sampler (hw : Adc → Nat × Nat) (s : Adc) :
    (readBattery hw s).1.PVCFG = 2 ∧
    (readBattery hw s).1.CHS = s.CHS ∧
    (readBattery hw s).1.GO = false ∧
    (readBattery hw s).2 =
      (readBattery hw s).1.ADRESH * 256 + (readBattery hw s).1.ADRESL ∧
    (setupAtoD s).CHS = 0 ∧
    (readBattery hw (setupAtoD s)).1.CHS = 0 ∧
    (readTemperature hw s).1.PVCFG = 0 ∧
    (readTemperature hw s).1.CHS = 1 ∧
    (readTemperature hw s).1.GO = false ∧
    (readTemperature hw s).2 =
      (readTemperature hw s).1.ADRESH * 256 + (readTemperature hw s).1.ADRESL := by
  exact ⟨rfl, rfl, rfl, rfl, rfl, rfl, rfl, rfl, rfl, rfl⟩

end LoRaRain
